import Mathlib

/-!
Verification development for the CarsDataset scraper repository.

The four site scrapers (autodata_scraper.py, carsdirectory_scraper.py,
theCarSpec_scraper.py, thecarSpec_scraper2.py) are shallowly embedded below:

* Python dictionaries (insertion-ordered, string-keyed) become association
  lists with Python assignment / setdefault semantics;
* the text-cleaning helpers (strip, replace, split, rstrip, lower, title)
  are reimplemented over character lists, matching CPython semantics on the
  ASCII inputs the scrapers handle;
* parsed HTML fragments become a small tree type, with bs4 operations
  (find_all with recursive=False, get_text, find) defined over it;
* the urllib3 retry machinery configured in init_session is embedded as a
  status-driven retry loop over a scripted list of HTTP responses;
* the stage pipelines (parse_cars / main) become functions from an abstract
  site description (what each page yields) to an outcome describing which
  files were written and whether the run aborted.
-/

/-! ## Python dictionaries -/

/-- Python dict with string keys and values: an insertion-ordered association
list in which each key occurs at most once (maintained by the operations). -/
abbrev PyDict := List (String × String)

/-- Membership test modelling the Python expression `k in d`. -/
def dictContains (d : PyDict) (k : String) : Bool :=
  d.any (fun p => p.1 == k)

/-- Lookup modelling `d[k]` when it succeeds: the value bound to the first
occurrence of `k`, if any. -/
def dictGet? (d : PyDict) (k : String) : Option String :=
  (d.find? (fun p => p.1 == k)).map (fun p => p.2)

/-- Python assignment `d[k] = v`: overwrite the binding in place when the key
exists (keeping its position), append a fresh binding otherwise. -/
def dictAssign (d : PyDict) (k v : String) : PyDict :=
  if dictContains d k then d.map (fun p => if p.1 == k then (k, v) else p)
  else d ++ [(k, v)]

/-- Python `d.setdefault(k, v)`: append the binding only when the key is
absent; an existing binding is left untouched. -/
def dictSetdefault (d : PyDict) (k v : String) : PyDict :=
  if dictContains d k then d else d ++ [(k, v)]

theorem dictContains_eq_isSome (d : PyDict) (k : String) :
    dictContains d k = (dictGet? d k).isSome := by
  induction d with
  | nil => rfl
  | cons p t ih =>
    by_cases h : (p.1 == k)
    · simp [dictContains, dictGet?, List.find?_cons, h]
    · simp only [dictContains, dictGet?, List.find?_cons, h, List.any_cons,
        Bool.false_or] at ih ⊢
      simpa [dictContains, dictGet?] using ih

theorem dictGet?_append_one (d : PyDict) (k v k' : String) :
    dictGet? (d ++ [(k, v)]) k' =
      (dictGet? d k').or (if k == k' then some v else none) := by
  unfold dictGet?
  rw [List.find?_append]
  cases h : d.find? (fun p => p.1 == k') with
  | none =>
    by_cases hk : (k == k') <;> simp [h, List.find?_cons, hk]
  | some p => simp [h]

theorem dictGet?_setdefault_of_some (d : PyDict) (k v k' w : String)
    (h : dictGet? d k' = some w) :
    dictGet? (dictSetdefault d k v) k' = some w := by
  unfold dictSetdefault
  by_cases hc : dictContains d k
  · simp [hc, h]
  · simp [hc, dictGet?_append_one, h]

theorem dictGet?_setdefault_of_none (d : PyDict) (k v k' : String)
    (h : dictGet? d k' = none) :
    dictGet? (dictSetdefault d k v) k' = if k' = k then some v else none := by
  unfold dictSetdefault
  by_cases hc : dictContains d k
  · have hk : ¬ (k' = k) := by
      intro he
      subst he
      rw [dictContains_eq_isSome, h] at hc
      simp at hc
    simp [hc, h, hk]
  · by_cases he : (k' = k)
    · subst he
      simp [hc, dictGet?_append_one, h]
    · have : (k == k') = false := by
        simp [beq_iff_eq]
        exact fun hh => he hh.symm
      simp [hc, dictGet?_append_one, h, this, he]

theorem dictGet?_map_overwrite (k v k' : String) (h : k' ≠ k) :
    ∀ d : PyDict,
      dictGet? (d.map (fun p => if p.1 == k then (k, v) else p)) k' = dictGet? d k'
  | [] => rfl
  | p :: t => by
    by_cases hp : (p.1 == k)
    · have hp' : p.1 = k := by simpa [beq_iff_eq] using hp
      have hkk : (k == k') = false := by
        simp only [beq_eq_false_iff_ne, ne_eq]
        exact fun hh => h hh.symm
      have hpk : (p.1 == k') = false := by
        rw [hp']
        exact hkk
      simp only [List.map_cons, dictGet?, List.find?_cons, hp, if_true, hkk, hpk]
      exact dictGet?_map_overwrite k v k' h t
    · simp only [List.map_cons, dictGet?, List.find?_cons, hp, Bool.false_eq_true,
        if_false]
      by_cases hpk : (p.1 == k')
      · simp [hpk]
      · simp only [hpk]
        exact dictGet?_map_overwrite k v k' h t

theorem dictGet?_assign_ne (d : PyDict) (k v k' : String) (h : k' ≠ k) :
    dictGet? (dictAssign d k v) k' = dictGet? d k' := by
  unfold dictAssign
  by_cases hc : dictContains d k
  · simp only [hc, if_true]
    exact dictGet?_map_overwrite k v k' h d
  · simp only [hc, if_false]
    have hkk : (k == k') = false := by
      simp only [beq_eq_false_iff_ne, ne_eq]
      exact fun hh => h hh.symm
    simp [dictGet?_append_one, hkk]

/-! ## Python string helpers -/

/-- Whitespace characters recognised by CPython str.strip and str.split on
the ASCII range handled by the scrapers. -/
def isPyWs (c : Char) : Bool :=
  c == ' ' || c == '\t' || c == '\n' || c == '\r' || c == '\x0b' || c == '\x0c'

/-- Python str.strip on a character list: drop whitespace from both ends. -/
def pyStripL (l : List Char) : List Char :=
  ((l.dropWhile isPyWs).reverse.dropWhile isPyWs).reverse

/-- Python s.strip(). -/
def pyStrip (s : String) : String := String.mk (pyStripL s.toList)

/-- Python s.replace(chr(10), empty): remove every newline character. -/
def removeNl (s : String) : String :=
  String.mk (s.toList.filter (fun c => c != '\n'))

/-- Python s.rstrip(pattern) for a one-character pattern: drop trailing
copies of that character. -/
def pyRstripChar (s : String) (c : Char) : String :=
  String.mk ((s.toList.reverse.dropWhile (fun a => a == c)).reverse)

/-- Python s.lower() on the ASCII range. -/
def pyLower (s : String) : String := String.mk (s.toList.map Char.toLower)

/-- Splitting a character list at every character satisfying the predicate,
keeping empty fragments, as Python s.split(sep) does. -/
def splitPredL (p : Char → Bool) : List Char → List (List Char)
  | [] => [[]]
  | c :: cs =>
    match splitPredL p cs with
    | [] => [[c]]
    | h :: t => if p c then [] :: h :: t else (c :: h) :: t

/-- Python s.split(sep) for a one-character separator string. -/
def pySplitChar (s : String) (sep : Char) : List String :=
  (splitPredL (fun a => a == sep) s.toList).map String.mk

/-- Python s.split() with no argument: split on whitespace runs, dropping
empty fragments. -/
def pySplitWs (s : String) : List String :=
  ((splitPredL isPyWs s.toList).filter (fun w => ¬ w.isEmpty)).map String.mk

/-! ## Properties of the stripping pipeline used by direct_text -/

/-- Auxiliary predicate: the list is empty or starts with a non-whitespace
character. -/
def headNotWs : List Char → Prop
  | [] => True
  | c :: _ => ¬ isPyWs c = true

theorem headNotWs_cons (c : Char) (cs : List Char) :
    headNotWs (c :: cs) ↔ ¬ isPyWs c = true := Iff.rfl

theorem headNotWs_dropWhile (l : List Char) : headNotWs (l.dropWhile isPyWs) := by
  induction l with
  | nil => trivial
  | cons c cs ih =>
    by_cases h : isPyWs c
    · simp only [List.dropWhile_cons, h, if_true]
      exact ih
    · rw [List.dropWhile_cons, if_neg h]
      exact h

theorem dropWhile_eq_self_of_headNotWs (l : List Char) (h : headNotWs l) :
    l.dropWhile isPyWs = l := by
  cases l with
  | nil => rfl
  | cons c cs =>
    have hc : ¬ isPyWs c = true := h
    simp [List.dropWhile_cons, hc]

theorem headNotWs_filter_ne_nl (l : List Char) (h : headNotWs l) :
    headNotWs (l.filter (fun c => c != '\n')) := by
  cases l with
  | nil => trivial
  | cons c cs =>
    have hc : ¬ isPyWs c = true := h
    have hnl : (c != '\n') = true := by
      simp only [bne_iff_ne, ne_eq]
      intro he
      subst he
      exact hc (by decide)
    simpa [List.filter_cons, hnl, headNotWs_cons] using hc

theorem headNotWs_append_left (l t : List Char) (h : headNotWs (l ++ t)) :
    headNotWs l := by
  cases l with
  | nil => trivial
  | cons c cs => exact h

theorem headNotWs_pyStripL (l : List Char) :
    headNotWs (pyStripL l) ∧ headNotWs (pyStripL l).reverse := by
  unfold pyStripL
  constructor
  · obtain ⟨t, ht⟩ := List.dropWhile_suffix (l := (l.dropWhile isPyWs).reverse) isPyWs
    have hA : headNotWs (l.dropWhile isPyWs) := headNotWs_dropWhile l
    have hEq : l.dropWhile isPyWs =
        ((l.dropWhile isPyWs).reverse.dropWhile isPyWs).reverse ++ t.reverse := by
      have h2 := congrArg List.reverse ht
      simpa [List.reverse_append] using h2.symm
    rw [hEq] at hA
    exact headNotWs_append_left _ _ hA
  · rw [List.reverse_reverse]
    exact headNotWs_dropWhile _

theorem pyStripL_eq_self (l : List Char) (h1 : headNotWs l)
    (h2 : headNotWs l.reverse) : pyStripL l = l := by
  unfold pyStripL
  rw [dropWhile_eq_self_of_headNotWs l h1, dropWhile_eq_self_of_headNotWs _ h2,
    List.reverse_reverse]

theorem pyStripL_filter_pyStripL (l : List Char) :
    pyStripL ((pyStripL l).filter (fun c => c != '\n')) =
      (pyStripL l).filter (fun c => c != '\n') := by
  obtain ⟨h1, h2⟩ := headNotWs_pyStripL l
  refine pyStripL_eq_self _ (headNotWs_filter_ne_nl _ h1) ?_
  rw [← List.filter_reverse]
  exact headNotWs_filter_ne_nl _ h2

/-! ## HTML fragments and bs4 operations -/

/-- Parsed HTML fragment: a bs4 NavigableString or an element tag with its
children in document order. Tag attributes are not needed on the embedded
code paths (row class markers are modelled on the row structure instead). -/
inductive Node where
  | text (s : String)
  | elem (name : String) (children : List Node)

/-- Child nodes of a node; a text node has none (bs4 tag.contents). -/
def Node.children : Node → List Node
  | .text _ => []
  | .elem _ cs => cs

/-- Strings sitting directly inside the tag, in document order: the result
list of tag.find_all(string=True, recursive=False). -/
def directStrings : Node → List String
  | .text _ => []
  | .elem _ cs =>
    cs.filterMap (fun c => match c with | .text s => some s | .elem _ _ => none)

/-- Text joined from the strings directly inside the tag, then stripped and
purged of newlines: the expression computed twice inside direct_text. -/
def ownText (t : Node) : String :=
  removeNl (pyStrip (String.join (directStrings t)))

/-- First child that is itself a tag, as the loop over tag.contents with an
isinstance check locates it. -/
def firstElemChild : List Node → Option Node
  | [] => none
  | .text _ :: ns => firstElemChild ns
  | .elem n cs :: _ => some (.elem n cs)

/-- Embedding of direct_text from autodata_scraper.py lines 178-188; the
same function appears verbatim in carsdirectory_scraper.py and (with an
extra None guard the type system makes unnecessary) theCarSpec_scraper.py. -/
def direct_text (tag : Node) : String :=
  let result := ownText tag
  if result ≠ "" then result
  else
    match firstElemChild (Node.children tag) with
    | some child => ownText child
    | none => ""

/-! ## Remaining Python helpers -/

/-- Python s.title() on the letter-vs-other distinction: a letter is
uppercased when it follows a non-letter and lowercased otherwise; the flag
carries whether the previous character was a letter. -/
def pyTitleL : Bool → List Char → List Char
  | _, [] => []
  | prevAlpha, c :: cs =>
    if c.isAlpha then
      (if prevAlpha then c.toLower else c.toUpper) :: pyTitleL true cs
    else c :: pyTitleL false cs

/-- Python s.title(). -/
def pyTitle (s : String) : String := String.mk (pyTitleL false s.toList)

/-- Contiguous-sublist test over character lists. -/
def infixCheckL (pat : List Char) : List Char → Bool
  | [] => pat.isEmpty
  | c :: cs => pat.isPrefixOf (c :: cs) || infixCheckL pat cs

/-- Python expression pat in s on strings: contiguous substring test. -/
def containsSub (s pat : String) : Bool := infixCheckL pat.toList s.toList

/-- Lexicographic less-or-equal on character lists by code point: the
comparison Python uses between strings. -/
def lexLeL : List Char → List Char → Bool
  | [], _ => true
  | _ :: _, [] => false
  | a :: as, b :: bs =>
    if a.toNat < b.toNat then true
    else if b.toNat < a.toNat then false
    else lexLeL as bs

/-- Lexicographic less-or-equal on strings by code point. -/
def strLeb (a b : String) : Bool := lexLeL a.toList b.toList

theorem lexLeL_total (a : List Char) : ∀ b : List Char,
    lexLeL a b = true ∨ lexLeL b a = true := by
  induction a with
  | nil => intro b; exact Or.inl rfl
  | cons x xs ih =>
    intro b
    cases b with
    | nil => exact Or.inr rfl
    | cons y ys =>
      rcases Nat.lt_trichotomy x.toNat y.toNat with h | h | h
      · exact Or.inl (by simp [lexLeL, h])
      · have h1 : ¬ x.toNat < y.toNat := by omega
        have h2 : ¬ y.toNat < x.toNat := by omega
        rcases ih ys with hr | hr
        · exact Or.inl (by simp [lexLeL, h1, h2, hr])
        · exact Or.inr (by simp [lexLeL, h1, h2, hr])
      · exact Or.inr (by simp [lexLeL, h])

theorem strLeb_total (a b : String) : strLeb a b = true ∨ strLeb b a = true :=
  lexLeL_total a.toList b.toList

/-- Insertion step for modelling Python sorted(). -/
def insertStr (x : String) : List String → List String
  | [] => [x]
  | y :: ys => if strLeb x y then x :: y :: ys else y :: insertStr x ys

/-- Python sorted() on strings: ascending lexicographic order by code point.
On the duplicate-free key lists it is applied to, any correct sort yields
this result. -/
def pySorted (l : List String) : List String := l.foldr insertStr []

theorem chain_insertStr (x : String) (l : List String)
    (h : List.Chain' (fun a b => strLeb a b = true) l) :
    List.Chain' (fun a b => strLeb a b = true) (insertStr x l) := by
  induction l with
  | nil => simp [insertStr]
  | cons y ys ih =>
    by_cases hle : strLeb x y
    · simp only [insertStr, hle, if_true]
      exact List.chain'_cons.mpr ⟨hle, h⟩
    · have hyx : strLeb y x = true := by
        rcases strLeb_total x y with hh | hh
        · exact absurd hh hle
        · exact hh
      simp only [insertStr, hle, Bool.false_eq_true, if_false]
      cases ys with
      | nil => simp [insertStr, hyx]
      | cons z zs =>
        rw [List.chain'_cons] at h
        obtain ⟨hyz, hzz⟩ := h
        have htail := ih hzz
        by_cases hlez : strLeb x z
        · simp only [insertStr, hlez, if_true] at htail ⊢
          exact List.chain'_cons.mpr ⟨hyx, htail⟩
        · simp only [insertStr, hlez, Bool.false_eq_true, if_false] at htail ⊢
          exact List.chain'_cons.mpr ⟨hyz, htail⟩

theorem chain_pySorted (l : List String) :
    List.Chain' (fun a b => strLeb a b = true) (pySorted l) := by
  induction l with
  | nil => simp [pySorted]
  | cons a t ih => exact chain_insertStr a (pySorted t) ih

/-! ## Resilient fetcher: the urllib3 Retry policy as configured -/

/-- One scripted HTTP exchange: a status code and a body text. -/
abbrev HttpResponse := Nat × String

/-- Status-driven retry loop of urllib3 Retry as mounted through the
HTTPAdapter in init_session: a response whose status is on the forcelist
consumes one unit of the retry budget and the request is reissued; when the
budget is already exhausted the adapter raises MaxRetryError (modelled as
none). A response off the forcelist is delivered to the caller. Responses
are consumed from the scripted list in order; an exhausted script yields
none. The second component counts HTTP requests actually issued. -/
def runRetry (forcelist : List Nat) : Nat → List HttpResponse →
    Option HttpResponse × Nat
  | _, [] => (none, 0)
  | budget, r :: rest =>
    if forcelist.contains r.1 then
      match budget with
      | 0 => (none, 1)
      | b + 1 =>
        let res := runRetry forcelist b rest
        (res.1, res.2 + 1)
    else (some r, 1)

/-- Embedding of download_page (autodata_scraper.py lines 43-64; the copies
in carsdirectory_scraper.py and theCarSpec_scraper.py differ only in their
session configuration and redirect guard): the session issues the request
through the retry adapter; raise_for_status turns a delivered status of 400
or above into an HTTPError that the handler converts to None; MaxRetryError
surfaces as a RequestException, also converted to None. The second
component counts HTTP requests issued. -/
def download_page (forcelist : List Nat) (total : Nat)
    (responses : List HttpResponse) : Option String × Nat :=
  match runRetry forcelist total responses with
  | (some r, n) => (if 400 ≤ r.1 then none else some r.2, n)
  | (none, n) => (none, n)

/-- Retry configuration of autodata_scraper.init_session (lines 26-37):
total budget 5 and no status_forcelist, so no plain HTTP error status is
retried (urllib3 retries a status only when it is on the forcelist or the
response carries a Retry-After header, which these sites do not send). -/
def autodataForcelist : List Nat := []

/-- Retry budget total=5 from autodata_scraper.init_session. -/
def autodataRetryTotal : Nat := 5

/-- status_forcelist of theCarSpec_scraper.init_session (lines 32-42). -/
def carspecForcelist : List Nat := [429, 500, 502, 503, 504]

/-- Retry budget total=5 from theCarSpec_scraper.init_session. -/
def carspecRetryTotal : Nat := 5

/-- Retry budget total=3 of the module-level session in
thecarSpec_scraper2.py (line 23); it shares the forcelist values. -/
def carspec2RetryTotal : Nat := 3

/-! ## bs4 get_text and find, and the per-site row loops -/

mutual

/-- All strings under the node in document order, as bs4 get_text collects
them. -/
def allStrings : Node → List String
  | .text s => [s]
  | .elem _ cs => allStringsL cs

/-- All strings under a node list in document order. -/
def allStringsL : List Node → List String
  | [] => []
  | n :: ns => allStrings n ++ allStringsL ns

end

/-- Joining a string list with a separator. -/
def joinSep (sep : String) : List String → String
  | [] => ""
  | [w] => w
  | w :: ws => w ++ sep ++ joinSep sep ws

/-- bs4 get_text(strip=True, separator=sep): every collected string is
stripped, empty fragments are dropped, and the rest joined with sep. -/
def getTextStrip (sep : String) (n : Node) : String :=
  joinSep sep (((allStrings n).map pyStrip).filter (fun w => w ≠ ""))

mutual

/-- bs4 tag.find(name) over a list of candidate subtrees: the first tag with
the given name, in pre-order document order. Applied to tag.contents it is
bs4 tag.find(name), which searches descendants only. -/
def findTag (name : String) : List Node → Option Node
  | [] => none
  | n :: ns =>
    match findTagSelf name n with
    | some r => some r
    | none => findTag name ns

/-- Search of one subtree, the node itself included. -/
def findTagSelf (name : String) : Node → Option Node
  | .text _ => none
  | .elem n cs => if n == name then some (.elem n cs) else findTag name cs

end

/-- One attribute-table row as the autodata parse_car loop sees it: whether
the tr carries a class attribute, and the first th and td of the row (none
when bs4 find comes back empty, which the assert turns into a caught
exception). -/
structure AutoRow where
  hasClass : Bool
  th : Option Node
  td : Option Node

/-- Body of the attribute-accumulation loop of parse_car
(autodata_scraper.py lines 204-224) for one row: rows with a class are
skipped; a row lacking th or td raises at the assert and the handler skips
it; otherwise the pair (direct_text th, direct_text td) is stored only when
the key is not yet present. -/
def autoRowStep (attributes : PyDict) (row : AutoRow) : PyDict :=
  if row.hasClass then attributes
  else
    match row.th, row.td with
    | some keyTag, some valueTag =>
      let key := direct_text keyTag
      let value := direct_text valueTag
      if dictContains attributes key then attributes
      else dictAssign attributes key value
    | _, _ => attributes

/-- Attribute-accumulation loop of parse_car over all table rows, starting
from the empty dict. -/
def parse_car_rows (rows : List AutoRow) : PyDict :=
  rows.foldl autoRowStep []

/-- One attribute-table row as the carsdirectory parse_car loop sees it. -/
structure DirRow where
  th : Option Node
  td : Option Node

/-- Body of the attribute loop of carsdirectory parse_car (lines 238-252)
for one row: rows missing th or td are skipped by the explicit None check,
and a key is stored only when not yet present. -/
def dirRowStep (attributes : PyDict) (row : DirRow) : PyDict :=
  match row.th, row.td with
  | some keyTag, some valueTag =>
    let key := direct_text keyTag
    let value := direct_text valueTag
    if dictContains attributes key then attributes
    else dictAssign attributes key value
  | _, _ => attributes

/-- Attribute loop of carsdirectory parse_car over all rows, starting from
the dict seeded with Brand and BrandModel from the variant page (lines
234-237). -/
def carsdirectory_parse_car_rows (brand model : String) (rows : List DirRow) :
    PyDict :=
  rows.foldl dirRowStep [("Brand", brand), ("BrandModel", model)]

/-- One spec-table row as thecarSpec_scraper2.get_car_data sees it. -/
structure SpecRow where
  th : Option Node
  td : Option Node

/-- Key cleaning of get_car_data line 116:
th.get_text(strip=True).rstrip(chr(58)).strip(). -/
def specRowKey (th : Node) : String :=
  pyStrip (pyRstripChar (getTextStrip "" th) ':')

/-- Value extraction of get_car_data lines 117-119: the h4 inside td wins,
otherwise td.get_text(strip=True, separator=space); then the value is
whitespace-normalised by joining value.split() with single spaces. -/
def specRowValue (td : Node) : String :=
  let raw :=
    match findTag "h4" (Node.children td) with
    | some h4Tag => getTextStrip "" h4Tag
    | none => getTextStrip " " td
  joinSep " " (pySplitWs raw)

/-- Key dispatch of one row of get_car_data (thecarSpec_scraper2.py lines
112-129). Assignments use plain Python item assignment, so a repeated key
overwrites. The comparison on line 126 is the chained Python expression
key == "Power (hp)" in key, which evaluates as a conjunction of the
equality and the substring test. The Curb-weight branch indexes
value.split()[0], raising IndexError on an all-whitespace value; the loop
has no handler, so that is modelled as a failed row (none). Rows missing
th or td are skipped by the if condition. -/
def specRowStep (data : PyDict) (row : SpecRow) : Option PyDict :=
  match row.th, row.td with
  | some th, some td =>
    let key := specRowKey th
    let value := specRowValue td
    if key == "Brand" then some (dictAssign data "Brand" value)
    else if key == "Model" then some (dictAssign data "Model" value)
    else if key == "Year production start" then
      some (dictAssign data "Year production start" value)
    else if key == "Fuel type" then some (dictAssign data "Fuel type" value)
    else if (key == "Power (hp)" && containsSub key "Power (hp)")
        || containsSub (pyLower key) "horsepower" then
      some (dictAssign data "Power (hp)" value)
    else if key == "Curb weight kg -lbs total" then
      match pySplitWs value with
      | [] => none
      | w :: _ => some (dictAssign data "Curb weight (kg)" w)
    else some (dictAssign data key value)
  | _, _ => some data

/-- Row-processing loop of get_car_data over the spec-table rows of one
section, starting from the data dict seeded with the URL (and possibly the
Version). -/
def get_car_data_rows (seed : PyDict) : List SpecRow → Option PyDict
  | [] => some seed
  | row :: rest =>
    match specRowStep seed row with
    | some d => get_car_data_rows d rest
    | none => none

/-! ## Record normalizer -/

/-- Priority column list of autodata write_to_csv (lines 242-244). -/
def autodataPriorityKeys : List String :=
  ["Brand", "Model", "Generation", "Start of production", "End of production",
   "Modification (Engine)", "Powertrain Architecture", "Body type", "Fuel Type",
   "Max. weight", "Length", "Width", "Height"]

/-- Column list computed by autodata write_to_csv (line 246): the whole
priority list, followed by the remaining members of the all_keys set in its
iteration order. Python does not specify a set iteration order, so the
enumeration of all_keys is a parameter. -/
def autodata_fieldnames (allKeysIter : List String) : List String :=
  autodataPriorityKeys
    ++ allKeysIter.filter (fun k => ¬ autodataPriorityKeys.contains k)

/-- Keys of a record in insertion order. -/
def recordKeys (car : PyDict) : List String := car.map (fun p => p.1)

/-- Removing later duplicates from a list, keeping first occurrences. -/
def firstSeenAux (seen : List String) : List String → List String
  | [] => []
  | k :: ks =>
    if seen.contains k then firstSeenAux seen ks
    else k :: firstSeenAux (k :: seen) ks

/-- Union of the records' keys in first-seen order: one canonical
enumeration of the all_keys set. -/
def unionKeys (cars : List PyDict) : List String :=
  firstSeenAux [] (cars.map recordKeys).flatten

/-- Priority column list of thecarSpec_scraper2 main (lines 200-201). -/
def carspec2PriorityKeys : List String :=
  ["Brand", "Model", "Version", "Year production start", "Engine version",
   "Fuel type", "Power (hp)", "Top Speed", "Curb weight (kg)", "URL"]

/-- Column list computed by thecarSpec_scraper2 main (line 202): the
priority keys filtered to those present in some record, followed by the
remaining present keys in the order sorted() produces. The all_keys set is
enumerated canonically in first-seen order; sorting makes the enumeration
irrelevant for the suffix and membership tests do not depend on it. -/
def carspec2_fieldnames (cars : List PyDict) : List String :=
  let allKeys := unionKeys cars
  carspec2PriorityKeys.filter (fun k => allKeys.contains k)
    ++ pySorted (allKeys.filter (fun k => ¬ carspec2PriorityKeys.contains k))

/-- Column order in the words of the spec (claim C5): the fixed priority
list filtered to fields actually present in the records, followed by the
remaining fields in first-seen order. -/
def spec_fieldnames (priorityKeys : List String) (cars : List PyDict) :
    List String :=
  let present := unionKeys cars
  priorityKeys.filter (fun k => present.contains k)
    ++ present.filter (fun k => ¬ priorityKeys.contains k)

/-- Record padding loop of write_to_csv (autodata lines 248-250, identical
in carsdirectory and theCarSpec): car.setdefault(key, empty string) for
every field name, mutating the record. -/
def padCar (fieldnames : List String) (car : PyDict) : PyDict :=
  fieldnames.foldl (fun c k => dictSetdefault c k "") car

/-- The record list as it stands after the normalizer's padding pass. -/
def write_to_csv_records (fieldnames : List String) (cars : List PyDict) :
    List PyDict :=
  cars.map (padCar fieldnames)

/-! ## URL backfill of thecarSpec_scraper2 -/

/-- Python s.replace(chr(45), chr(32)): single-character substitution. -/
def dashToSpace (s : String) : String :=
  String.mk (s.toList.map (fun c => if c == '-' then ' ' else c))

/-- Brand/Model backfill of thecarSpec_scraper2 main lines 182-187: when
either field is missing, both are (re)derived from path segments of the
URL, provided the slash-split of the rstripped URL has at least 6 parts.
Accessing car["URL"] raises KeyError when that key is absent; the loop has
no handler, so that case is modelled as none (run crash). -/
def backfillCar (car : PyDict) : Option PyDict :=
  if dictContains car "Brand" && dictContains car "Model" then some car
  else
    match dictGet? car "URL" with
    | none => none
    | some url =>
      let parts := pySplitChar (pyRstripChar url '/') '/'
      if 6 ≤ parts.length then
        let brand := pyTitle (dashToSpace (parts.getD (parts.length - 4) ""))
        let model := pyTitle (dashToSpace (parts.getD (parts.length - 3) ""))
        some (dictAssign (dictAssign car "Brand" brand) "Model" model)
      else some car

/-! ## Stage pipelines -/

/-- Abstract description of the auto-data.net site for one run: what each
stage function extracts from each page it is given. Downloading and HTML
parsing inside a stage are summarised by the per-page output, which is all
the orchestration in parse_cars observes. -/
structure Site where
  brands : List String
  models : String → List String
  generations : String → List String
  variants : String → List String
  car : String → PyDict

/-- Aggregated model-stage output: flattened per-brand model links. -/
def modelLinks (s : Site) : List String := (s.brands.map s.models).flatten

/-- Aggregated generation-stage output. -/
def generationLinks (s : Site) : List String :=
  ((modelLinks s).map s.generations).flatten

/-- Aggregated variant-stage output. -/
def variantLinks (s : Site) : List String :=
  ((generationLinks s).map s.variants).flatten

/-- Aggregated detail-stage output: one record dict per variant link. -/
def carRecords (s : Site) : List PyDict := (variantLinks s).map s.car

/-- Embedding of parse_cars (autodata_scraper.py lines 265-305; the
carsdirectory version lines 288-328 has the same shape): each stage maps
its extractor over the previous stage output and flattens, and a stage with
fewer than one aggregated result ends the function with None. The unordered
pool_map aggregation is modelled in input order, which the emptiness checks
and write decisions studied here do not distinguish. -/
def parse_cars (s : Site) : Option (List PyDict) :=
  if s.brands.length < 1 then none
  else if (modelLinks s).length < 1 then none
  else if (generationLinks s).length < 1 then none
  else if (variantLinks s).length < 1 then none
  else if (carRecords s).length < 1 then none
  else some (carRecords s)

/-- Observable outcome of one autodata main run. -/
structure RunResult where
  wrotePickle : Bool
  wroteCsv : Bool
  aborted : Bool
deriving DecidableEq

/-- Embedding of autodata main (lines 307-334): with a cached pickle the
CSV is rewritten from it; otherwise parse_cars runs, a None result ends
main with no file written, and a successful result writes the pickle and
then the CSV. -/
def autodata_main (pickleExists : Bool) (s : Site) : RunResult :=
  if pickleExists then ⟨false, true, false⟩
  else
    match parse_cars s with
    | none => ⟨false, false, true⟩
    | some _ => ⟨true, true, false⟩

/-- Abstract description of thecarspec.net as thecarSpec_scraper2 observes
it: get_brands yields (name, url) pairs, get_models and get_variants yield
per-page link lists, get_car_data yields an optional record per detail
page. -/
structure Site2 where
  brands : List (String × String)
  models : String → List String
  variants : String → List String
  carData : String → Option PyDict

/-- Aggregated model links of the scraper2 run. -/
def scraper2_models (s : Site2) : List String :=
  (s.brands.map (fun b => s.models b.2)).flatten

/-- Aggregated variant links of the scraper2 run. -/
def scraper2_variants (s : Site2) : List String :=
  ((scraper2_models s).map s.variants).flatten

/-- Detail records of the scraper2 run with the None results dropped. -/
def scraper2_cars (s : Site2) : List PyDict :=
  ((scraper2_variants s).map s.carData).filterMap id

/-- Observable outcome of one thecarSpec_scraper2 fresh-crawl run. -/
structure Run2Result where
  wrotePickle : Bool
  wroteCsv : Bool
  abortedNoBrands : Bool
  crashed : Bool
deriving DecidableEq

/-- Sequencing of the per-car backfills: none as soon as one car raises. -/
def backfillAll : List PyDict → Option (List PyDict)
  | [] => some []
  | car :: rest =>
    match backfillCar car with
    | none => none
    | some car2 =>
      match backfillAll rest with
      | none => none
      | some rest2 => some (car2 :: rest2)

/-- Embedding of thecarSpec_scraper2 main (lines 155-211) on the
fresh-crawl path (no usable pickle): empty brands return before any file
is written; otherwise models, variants and detail records are collected
with plain pool.map and no emptiness check, the Brand/Model backfill runs,
the pickle is dumped unconditionally, and the CSV is then written from the
same records. A KeyError in the backfill would propagate and end the
process before the dump. -/
def scraper2_run (s : Site2) : Run2Result :=
  if s.brands.isEmpty then ⟨false, false, true, false⟩
  else
    match backfillAll (scraper2_cars s) with
    | none => ⟨false, false, false, true⟩
    | some _ => ⟨true, true, false, false⟩

/-! ## Checkpoint store -/

/-- Decoded state of a snapshot file as the load sites distinguish it:
missing file, a pickle whose load raises, a pickle that decodes to a value
that is not a record list (and on which len also raises), or a decoded
record list. -/
inductive Snapshot where
  | absent
  | corrupt
  | nonList
  | list (rs : List PyDict)

/-- Outcome of the checkpoint phase of a main run. -/
structure CkptOutcome where
  snapshotRemoved : Bool
  ranFullPipeline : Bool
  usedSnapshot : Bool
deriving DecidableEq

/-- Embedding of the snapshot validation in theCarSpec_scraper.main (lines
290-302) with the following branch (lines 304-328): a pickle that fails to
load, fails the isinstance list check, or has fewer than 100 records is
unlinked and the full pipeline runs; otherwise the snapshot is used and the
crawl is skipped. -/
def carspec_checkpoint_main : Snapshot → CkptOutcome
  | .absent => ⟨false, true, false⟩
  | .corrupt => ⟨true, true, false⟩
  | .nonList => ⟨true, true, false⟩
  | .list rs =>
    if rs.length < 100 then ⟨true, true, false⟩ else ⟨false, false, true⟩

/-- Embedding of the snapshot validation in thecarSpec_scraper2.main (lines
144-153): a pickle whose load or len raises is removed, as is one with
fewer than 10000 entries; otherwise it is used and the crawl is skipped. -/
def carspec2_checkpoint_main : Snapshot → CkptOutcome
  | .absent => ⟨false, true, false⟩
  | .corrupt => ⟨true, true, false⟩
  | .nonList => ⟨true, true, false⟩
  | .list rs =>
    if rs.length < 10000 then ⟨true, true, false⟩ else ⟨false, false, true⟩

/-- Outcome of the checkpoint phase of autodata main, which has no
validation; a pickle that fails to load or iterate propagates its exception
and crashes the run. -/
structure CkptOutcomeA where
  snapshotRemoved : Bool
  ranFullPipeline : Bool
  usedSnapshot : Bool
  crashed : Bool
deriving DecidableEq

/-- Embedding of the cache branch of autodata main (lines 310-314; the
carsdirectory version lines 333-337 is identical in shape): an existing
pickle is loaded and written to CSV with no list-type or size validation
and no deletion path; only a missing pickle triggers the crawl. -/
def autodata_checkpoint_main : Snapshot → CkptOutcomeA
  | .absent => ⟨false, true, false, false⟩
  | .corrupt => ⟨false, false, false, true⟩
  | .nonList => ⟨false, false, false, true⟩
  | .list _ => ⟨false, false, true, false⟩

/-! ## Checkpoint serialization -/

/-- Length-prefixed encoding of one string: character count followed by the
code points. -/
def encodeString (s : String) : List Nat :=
  s.toList.length :: s.toList.map Char.toNat

/-- Length-prefixed encoding of one record: pair count followed by the
encoded key/value pairs. -/
def encodeRecord (r : PyDict) : List Nat :=
  r.length :: (r.map (fun p => encodeString p.1 ++ encodeString p.2)).flatten

/-- Modelled from the spec: write_pickle (autodata lines 257-259) persists
the record list with pickle.dump; the pickle byte format is produced by the
standard library, not by code in this repository, and is modelled as a
length-prefixed token stream over the record structure. -/
def write_pickle (rs : List PyDict) : List Nat :=
  rs.length :: (rs.map encodeRecord).flatten

/-- Decoder for one length-prefixed string, returning the remainder of the
stream. -/
def decodeString : List Nat → Option (String × List Nat)
  | [] => none
  | n :: rest =>
    if n ≤ rest.length then
      some (String.mk ((rest.take n).map Char.ofNat), rest.drop n)
    else none

/-- Decoder for a counted run of key/value pairs. -/
def decodePairs : Nat → List Nat → Option (PyDict × List Nat)
  | 0, rest => some ([], rest)
  | n + 1, rest =>
    match decodeString rest with
    | none => none
    | some (k, rest1) =>
      match decodeString rest1 with
      | none => none
      | some (v, rest2) =>
        match decodePairs n rest2 with
        | none => none
        | some (ps, rest3) => some ((k, v) :: ps, rest3)

/-- Decoder for a counted run of records. -/
def decodeRecords : Nat → List Nat → Option (List PyDict × List Nat)
  | 0, rest => some ([], rest)
  | n + 1, rest =>
    match rest with
    | [] => none
    | m :: rest0 =>
      match decodePairs m rest0 with
      | none => none
      | some (r, rest1) =>
        match decodeRecords n rest1 with
        | none => none
        | some (rs, rest2) => some (r :: rs, rest2)

/-- Modelled from the spec: read_pickle (autodata lines 261-263) is
pickle.load of a snapshot; a stream that does not decode exactly to a
record list is a load failure (none). -/
def read_pickle (bytes : List Nat) : Option (List PyDict) :=
  match bytes with
  | [] => none
  | n :: rest =>
    match decodeRecords n rest with
    | some (rs, []) => some rs
    | _ => none

/-! ## Supporting lemmas -/

theorem decodeString_encode (s : String) (rest : List Nat) :
    decodeString (encodeString s ++ rest) = some (s, rest) := by
  unfold encodeString decodeString
  simp only [List.cons_append]
  have hlen : s.toList.length ≤ (s.toList.map Char.toNat ++ rest).length := by
    simp [List.length_append]
  rw [if_pos hlen]
  have htake : (s.toList.map Char.toNat ++ rest).take s.toList.length
      = s.toList.map Char.toNat := by
    simp
  have hdrop : (s.toList.map Char.toNat ++ rest).drop s.toList.length = rest := by
    simp
  rw [htake, hdrop]
  have hmap : (s.toList.map Char.toNat).map Char.ofNat = s.toList := by
    rw [List.map_map]
    simp [Function.comp_def, Char.ofNat_toNat]
  rw [hmap]
  rfl

theorem decodePairs_encode (r : PyDict) (rest : List Nat) :
    decodePairs r.length
      ((r.map (fun p => encodeString p.1 ++ encodeString p.2)).flatten ++ rest)
      = some (r, rest) := by
  induction r generalizing rest with
  | nil => simp [decodePairs]
  | cons p t ih =>
    simp only [List.map_cons, List.flatten_cons, List.length_cons,
      List.append_assoc, decodePairs, decodeString_encode, ih]

theorem decodeRecords_encode (rs : List PyDict) (rest : List Nat) :
    decodeRecords rs.length ((rs.map encodeRecord).flatten ++ rest)
      = some (rs, rest) := by
  induction rs generalizing rest with
  | nil => simp [decodeRecords]
  | cons r t ih =>
    simp only [List.map_cons, List.flatten_cons, List.length_cons,
      encodeRecord, List.cons_append, List.append_assoc, decodeRecords,
      decodePairs_encode, ih]

theorem padCar_cons (f : String) (fs : List String) (car : PyDict) :
    padCar (f :: fs) car = padCar fs (dictSetdefault car f "") := rfl

theorem padCar_get_of_some (fieldnames : List String) (car : PyDict)
    (k w : String) (h : dictGet? car k = some w) :
    dictGet? (padCar fieldnames car) k = some w := by
  induction fieldnames generalizing car with
  | nil => simpa [padCar] using h
  | cons f fs ih =>
    rw [padCar_cons]
    exact ih _ (dictGet?_setdefault_of_some car f "" k w h)

theorem padCar_get_of_none (fieldnames : List String) (car : PyDict)
    (k : String) (h : dictGet? car k = none) :
    dictGet? (padCar fieldnames car) k =
      if fieldnames.contains k then some "" else none := by
  induction fieldnames generalizing car with
  | nil => simpa [padCar] using h
  | cons f fs ih =>
    rw [padCar_cons]
    by_cases he : k = f
    · subst he
      have h1 : dictGet? (dictSetdefault car k "") k = some "" := by
        rw [dictGet?_setdefault_of_none car k "" k h]
        simp
      rw [padCar_get_of_some fs _ k "" h1]
      have hck : (k :: fs).contains k = true := by simp
      rw [hck, if_pos rfl]
    · have h1 : dictGet? (dictSetdefault car f "") k = none := by
        rw [dictGet?_setdefault_of_none car f "" k h]
        simp [he]
      have hkf : (k == f) = false := by
        simp only [beq_eq_false_iff_ne, ne_eq]
        exact he
      rw [ih _ h1]
      have hck : (f :: fs).contains k = fs.contains k := by
        simp only [List.contains_cons, hkf, Bool.false_or]
      rw [hck]

theorem backfillCar_preserves_other (car car' : PyDict) (k : String)
    (h : backfillCar car = some car') (hb : k ≠ "Brand") (hm : k ≠ "Model") :
    dictGet? car' k = dictGet? car k := by
  unfold backfillCar at h
  by_cases hc : (dictContains car "Brand" && dictContains car "Model")
  · rw [if_pos hc] at h
    injection h with h
    rw [← h]
  · rw [if_neg hc] at h
    cases hu : dictGet? car "URL" with
    | none =>
      rw [hu] at h
      cases h
    | some url =>
      rw [hu] at h
      dsimp only [] at h
      by_cases hlen : 6 ≤ (pySplitChar (pyRstripChar url '/') '/').length
      · rw [if_pos hlen] at h
        injection h with h
        rw [← h, dictGet?_assign_ne _ _ _ _ hm, dictGet?_assign_ne _ _ _ _ hb]
      · rw [if_neg hlen] at h
        injection h with h
        rw [← h]

theorem autoRowStep_preserves (attrs : PyDict) (row : AutoRow) (k w : String)
    (h : dictGet? attrs k = some w) :
    dictGet? (autoRowStep attrs row) k = some w := by
  unfold autoRowStep
  by_cases hcl : row.hasClass
  · simpa [hcl] using h
  · simp only [hcl, Bool.false_eq_true, if_false]
    cases row.th with
    | none => exact h
    | some keyTag =>
      cases row.td with
      | none => exact h
      | some valueTag =>
        simp only
        by_cases hc : dictContains attrs (direct_text keyTag)
        · simpa [hc] using h
        · simp only [hc, Bool.false_eq_true, if_false]
          by_cases he : k = direct_text keyTag
          · exfalso
            rw [dictContains_eq_isSome, ← he, h] at hc
            simp at hc
          · rw [dictGet?_assign_ne _ _ _ _ he]
            exact h

theorem autoRows_foldl_preserves (rows : List AutoRow) (attrs : PyDict)
    (k w : String) (h : dictGet? attrs k = some w) :
    dictGet? (rows.foldl autoRowStep attrs) k = some w := by
  induction rows generalizing attrs with
  | nil => simpa using h
  | cons r t ih =>
    simp only [List.foldl_cons]
    exact ih _ (autoRowStep_preserves attrs r k w h)

theorem dirRowStep_preserves (attrs : PyDict) (row : DirRow) (k w : String)
    (h : dictGet? attrs k = some w) :
    dictGet? (dirRowStep attrs row) k = some w := by
  unfold dirRowStep
  cases row.th with
  | none => exact h
  | some keyTag =>
    cases row.td with
    | none => exact h
    | some valueTag =>
      simp only
      by_cases hc : dictContains attrs (direct_text keyTag)
      · simpa [hc] using h
      · simp only [hc, Bool.false_eq_true, if_false]
        by_cases he : k = direct_text keyTag
        · exfalso
          rw [dictContains_eq_isSome, ← he, h] at hc
          simp at hc
        · rw [dictGet?_assign_ne _ _ _ _ he]
          exact h

theorem dirRows_foldl_preserves (rows : List DirRow) (attrs : PyDict)
    (k w : String) (h : dictGet? attrs k = some w) :
    dictGet? (rows.foldl dirRowStep attrs) k = some w := by
  induction rows generalizing attrs with
  | nil => simpa using h
  | cons r t ih =>
    simp only [List.foldl_cons]
    exact ih _ (dirRowStep_preserves attrs r k w h)

theorem mem_insertStr (x a : String) (l : List String)
    (h : a ∈ insertStr x l) : a = x ∨ a ∈ l := by
  induction l with
  | nil => simpa [insertStr] using h
  | cons y ys ih =>
    by_cases hle : strLeb x y
    · simpa [insertStr, hle, List.mem_cons] using h
    · simp only [insertStr, hle, Bool.false_eq_true, if_false, List.mem_cons] at h
      rcases h with h | h
      · exact Or.inr (by simp [h])
      · rcases ih h with h' | h'
        · exact Or.inl h'
        · exact Or.inr (List.mem_cons_of_mem _ h')

theorem mem_pySorted (a : String) (l : List String) (h : a ∈ pySorted l) :
    a ∈ l := by
  induction l with
  | nil => simp [pySorted] at h
  | cons x t ih =>
    rcases mem_insertStr x a (pySorted t) h with h' | h'
    · simp [h']
    · exact List.mem_cons_of_mem _ (ih h')

/-! ## Claim theorems -/

/-- Concrete thecarspec.net description with one brand whose page yields no
models: the model-stage output set is empty. -/
def site20 : Site2 :=
  ⟨[("Abarth", "u")], fun _ => [], fun _ => [], fun _ => none⟩

/-- Claim C1 counterexample: in thecarSpec_scraper2 the model-stage output
is empty, yet the run does not abort — it still writes both the pickle
snapshot and the CSV table. -/
theorem claim_C1_counterexample :
    scraper2_models site20 = [] ∧
    scraper2_run site20 = ⟨true, true, false, false⟩ := by decide

/-- Claim C1 (amended): in the autodata and carsdirectory pipelines an
empty aggregated stage output aborts the run — parse_cars returns None and
main writes neither snapshot nor table. In thecarSpec_scraper2 only an
empty brand-stage output aborts before any write; with non-empty brands the
run writes the pickle and the CSV even when a later stage output is
empty. -/
theorem claim_C1_empty_stage (s : Site) (s2 : Site2) :
    ((s.brands = [] ∨ modelLinks s = [] ∨ generationLinks s = [] ∨
        variantLinks s = [] ∨ carRecords s = []) →
      autodata_main false s = ⟨false, false, true⟩) ∧
    (s2.brands = [] → scraper2_run s2 = ⟨false, false, true, false⟩) ∧
    (s2.brands ≠ [] → (scraper2_run s2).crashed = false →
      (scraper2_run s2).wrotePickle = true ∧ (scraper2_run s2).wroteCsv = true) := by
  refine ⟨?_, ?_, ?_⟩
  · intro h
    have hnone : parse_cars s = none := by
      unfold parse_cars
      split_ifs with h1 h2 h3 h4 h5
      · rfl
      · rfl
      · rfl
      · rfl
      · rfl
      · exfalso
        rcases h with h | h | h | h | h
        · exact h1 (by simp [h])
        · exact h2 (by simp [h])
        · exact h3 (by simp [h])
        · exact h4 (by simp [h])
        · exact h5 (by simp [h])
    simp [autodata_main, hnone]
  · intro h
    simp [scraper2_run, h]
  · intro hne hcr
    unfold scraper2_run at hcr ⊢
    have hni : s2.brands.isEmpty = false := by
      simp [List.isEmpty_iff]
      exact hne
    simp only [hni, Bool.false_eq_true, if_false] at hcr ⊢
    cases hb : backfillAll (scraper2_cars s2) with
    | none =>
      rw [hb] at hcr
      simp at hcr
    | some l => exact ⟨rfl, rfl⟩

/-- Concrete autodata site with one brand but no models. -/
def siteNoModels : Site :=
  ⟨["b1"], fun _ => [], fun _ => [], fun _ => [], fun _ => []⟩

/-- Concrete thecarspec site with no brands at all. -/
def site2Empty : Site2 := ⟨[], fun _ => [], fun _ => [], fun _ => none⟩

/-- Witness for claim C1: the amended theorem applied at concrete sites. -/
theorem claim_C1_witness :
    autodata_main false siteNoModels = ⟨false, false, true⟩ ∧
    scraper2_run site2Empty = ⟨false, false, true, false⟩ ∧
    (scraper2_run site20).wrotePickle = true ∧
    (scraper2_run site20).wroteCsv = true := by
  refine ⟨?_, ?_, ?_⟩
  · exact (claim_C1_empty_stage siteNoModels site2Empty).1
      (Or.inr (Or.inl (by decide)))
  · exact (claim_C1_empty_stage siteNoModels site2Empty).2.1 (by decide)
  · exact (claim_C1_empty_stage siteNoModels site20).2.2 (by decide) (by decide)

/-- Claim C2 counterexample: the autodata fetcher (no status_forcelist)
does not retry a 503; on the scripted sequence of three 503s then a 200 it
gives up after a single request with no body instead of returning the 200
body after four requests. -/
theorem claim_C2_counterexample :
    download_page autodataForcelist autodataRetryTotal
        [(503, ""), (503, ""), (503, ""), (200, "body")] = (none, 1) ∧
    ¬ download_page autodataForcelist autodataRetryTotal
        [(503, ""), (503, ""), (503, ""), (200, "body")] = (some "body", 4) := by
  decide

/-- Claim C2 (amended): under the theCarSpec fetcher configurations
(status_forcelist 429/500/502/503/504 with budgets 5 and 3) three
consecutive 503 responses followed by a 200 yield the 200 body in exactly
four requests; a status off the forcelist — every other 4xx, and also 501 —
is delivered on the first request, where raise_for_status fails it
immediately without a retry; a forcelisted status is retried. The autodata
fetcher has no forcelist, so it answers after one request whatever the
status. -/
theorem claim_C2_fetch_retry (s : Nat) (b body : String)
    (rest : List HttpResponse) :
    download_page carspecForcelist carspecRetryTotal
        [(503, ""), (503, ""), (503, ""), (200, "body")] = (some "body", 4) ∧
    download_page carspecForcelist carspec2RetryTotal
        [(503, ""), (503, ""), (503, ""), (200, "body")] = (some "body", 4) ∧
    (400 ≤ s → s ∉ carspecForcelist →
      download_page carspecForcelist carspecRetryTotal ((s, b) :: rest)
        = (none, 1)) ∧
    (s ∈ carspecForcelist →
      download_page carspecForcelist carspecRetryTotal
        ((s, b) :: (200, body) :: rest) = (some body, 2)) ∧
    download_page autodataForcelist autodataRetryTotal ((s, b) :: rest)
      = (if 400 ≤ s then none else some b, 1) := by
  refine ⟨by decide, by decide, ?_, ?_, ?_⟩
  · intro h1 h2
    simp [download_page, runRetry, h2, h1]
  · intro h
    have h200 : ¬ (200 ∈ carspecForcelist) := by decide
    simp [download_page, runRetry, h, carspecRetryTotal, h200]
  · by_cases h4 : 400 ≤ s
    · simp [download_page, runRetry, autodataForcelist, h4]
    · simp [download_page, runRetry, autodataForcelist, h4]

/-- Witness for claim C2: the amended theorem applied at status 501 (a 5xx
that is not retried), status 429 (retried, then success on the second
request), and a plain 404 at the autodata fetcher. -/
theorem claim_C2_witness :
    download_page carspecForcelist carspecRetryTotal [(501, "x")] = (none, 1) ∧
    download_page carspecForcelist carspecRetryTotal [(429, "x"), (200, "ok")]
      = (some "ok", 2) ∧
    download_page autodataForcelist autodataRetryTotal [(404, "x")] = (none, 1) := by
  refine ⟨?_, ?_, ?_⟩
  · exact (claim_C2_fetch_retry 501 "x" "ok" []).2.2.1 (by decide) (by decide)
  · exact (claim_C2_fetch_retry 429 "x" "ok" []).2.2.2.1 (by decide)
  · exact ((claim_C2_fetch_retry 404 "x" "ok" []).2.2.2.2).trans (by decide)

/-- Rows of one detail table carrying the same key twice with different
values. -/
def dupRows : List SpecRow :=
  [⟨some (.elem "th" [.text "Foo"]), some (.elem "td" [.text "1"])⟩,
   ⟨some (.elem "th" [.text "Foo"]), some (.elem "td" [.text "2"])⟩]

/-- Claim C3 counterexample: the get_car_data row loop of
thecarSpec_scraper2 keeps the LAST value written for a duplicate key — the
second row overwrites the first, so the record maps Foo to 2, not to the
first-written 1. -/
theorem claim_C3_counterexample :
    get_car_data_rows [("URL", "u")] dupRows
      = some [("URL", "u"), ("Foo", "2")] ∧
    ¬ dictGet? [("URL", "u"), ("Foo", "2")] "Foo" = some "1" := by decide

/-- Claim C3 (amended): the autodata and carsdirectory extractors keep the
first value written for each key — rows processed later never change a key
already bound; the thecarSpec_scraper2 extractor instead overwrites on a
duplicate key, keeping the last value. -/
theorem claim_C3_first_write (rows1 rows2 : List AutoRow)
    (drows1 drows2 : List DirRow) (b m k w : String) :
    (dictGet? (parse_car_rows rows1) k = some w →
      dictGet? (parse_car_rows (rows1 ++ rows2)) k = some w) ∧
    (dictGet? (carsdirectory_parse_car_rows b m drows1) k = some w →
      dictGet? (carsdirectory_parse_car_rows b m (drows1 ++ drows2)) k = some w) ∧
    get_car_data_rows [("URL", "u")] dupRows
      = some [("URL", "u"), ("Foo", "2")] := by
  refine ⟨?_, ?_, by decide⟩
  · intro h
    unfold parse_car_rows at h ⊢
    rw [List.foldl_append]
    exact autoRows_foldl_preserves rows2 _ k w h
  · intro h
    unfold carsdirectory_parse_car_rows at h ⊢
    rw [List.foldl_append]
    exact dirRows_foldl_preserves drows2 _ k w h

/-- First autodata row writing Foo to 1. -/
def autoDupRow1 : List AutoRow :=
  [⟨false, some (.elem "th" [.text "Foo"]), some (.elem "td" [.text "1"])⟩]

/-- Later autodata row writing Foo to 2. -/
def autoDupRow2 : List AutoRow :=
  [⟨false, some (.elem "th" [.text "Foo"]), some (.elem "td" [.text "2"])⟩]

/-- First carsdirectory row writing Foo to 1. -/
def dirDupRow1 : List DirRow :=
  [⟨some (.elem "th" [.text "Foo"]), some (.elem "td" [.text "1"])⟩]

/-- Later carsdirectory row writing Foo to 2. -/
def dirDupRow2 : List DirRow :=
  [⟨some (.elem "th" [.text "Foo"]), some (.elem "td" [.text "2"])⟩]

/-- Witness for claim C3: the first-write policy applied at concrete
duplicate rows in both first-write scrapers. -/
theorem claim_C3_witness :
    dictGet? (parse_car_rows (autoDupRow1 ++ autoDupRow2)) "Foo" = some "1" ∧
    dictGet? (carsdirectory_parse_car_rows "B" "M" (dirDupRow1 ++ dirDupRow2))
      "Foo" = some "1" := by
  constructor
  · exact (claim_C3_first_write autoDupRow1 autoDupRow2 [] [] "B" "M"
      "Foo" "1").1 (by decide)
  · exact (claim_C3_first_write [] [] dirDupRow1 dirDupRow2 "B" "M"
      "Foo" "1").2.1 (by decide)

/-- Claim C4 (confirmed): direct_text returns the text owned directly by
the tag — its direct strings joined, stripped and purged of newlines,
excluding all nested-tag text; when the tag owns no such text it returns
the direct text of the tag's first child element, and the empty string when
there is no child element either. -/
theorem claim_C4_direct_text (t : Node) :
    (ownText t ≠ "" → direct_text t = ownText t) ∧
    (ownText t = "" → ∀ c, firstElemChild (Node.children t) = some c →
      direct_text t = ownText c) ∧
    (ownText t = "" → firstElemChild (Node.children t) = none →
      direct_text t = "") := by
  refine ⟨?_, ?_, ?_⟩
  · intro h
    simp [direct_text, h]
  · intro h c hc
    simp [direct_text, h, hc]
  · intro h hc
    simp [direct_text, h, hc]

/-- Witness for claim C4: a cell with both direct and nested text keeps the
direct text only; a cell whose only content sits in a child element yields
that child's direct text; an empty cell yields the empty string. -/
theorem claim_C4_witness :
    direct_text (.elem "td" [.text " x ", .elem "b" [.text "nested"]]) = "x" ∧
    direct_text (.elem "td" [.elem "span" [.text " y "]]) = "y" ∧
    direct_text (.elem "td" []) = "" := by
  refine ⟨?_, ?_, ?_⟩
  · exact ((claim_C4_direct_text
      (.elem "td" [.text " x ", .elem "b" [.text "nested"]])).1
      (by decide)).trans (by decide)
  · exact ((claim_C4_direct_text (.elem "td" [.elem "span" [.text " y "]])).2.1
      (by decide) (.elem "span" [.text " y "]) rfl).trans (by decide)
  · exact (claim_C4_direct_text (.elem "td" [])).2.2 (by decide) rfl

/-- Single-record set whose only field is Foo. -/
def oneFooRecord : List PyDict := [[("Foo", "1")]]

/-- Claim C5 counterexample: for the record set whose single key is Foo
(a one-element key set with only one possible iteration order), the
autodata write_to_csv column list keeps all thirteen priority keys although
none occurs in any record, while the rule stated in the claim yields just
the Foo column. -/
theorem claim_C5_counterexample :
    autodata_fieldnames (unionKeys oneFooRecord)
      ≠ spec_fieldnames autodataPriorityKeys oneFooRecord ∧
    autodata_fieldnames (unionKeys oneFooRecord)
      = autodataPriorityKeys ++ ["Foo"] ∧
    spec_fieldnames autodataPriorityKeys oneFooRecord = ["Foo"] := by decide

/-- Claim C5 (amended): in autodata and carsdirectory the column list is
the whole priority list — absent fields included — followed by the
remaining keys in the unspecified set-iteration order; in
thecarSpec_scraper2 it is the priority list filtered to present keys,
followed by the remaining present keys sorted lexicographically rather than
in first-seen order. -/
theorem claim_C5_column_order (allKeysIter : List String) (cars : List PyDict)
    (k : String) :
    (k ∈ autodataPriorityKeys → k ∈ autodata_fieldnames allKeysIter) ∧
    (autodata_fieldnames allKeysIter).take autodataPriorityKeys.length
      = autodataPriorityKeys ∧
    (k ∈ carspec2_fieldnames cars → k ∈ unionKeys cars) ∧
    List.Chain' (fun a b => strLeb a b = true)
      ((carspec2_fieldnames cars).drop
        (carspec2PriorityKeys.filter
          (fun k2 => (unionKeys cars).contains k2)).length) := by
  refine ⟨?_, ?_, ?_, ?_⟩
  · intro h
    exact List.mem_append.mpr (Or.inl h)
  · simp [autodata_fieldnames]
  · intro h
    unfold carspec2_fieldnames at h
    rcases List.mem_append.mp h with h | h
    · have h2 := (List.mem_filter.mp h).2
      simpa using h2
    · exact (List.mem_filter.mp (mem_pySorted _ _ h)).1
  · have hdq : (carspec2_fieldnames cars).drop
        (carspec2PriorityKeys.filter
          (fun k2 => (unionKeys cars).contains k2)).length
        = pySorted ((unionKeys cars).filter
            (fun k2 => ¬ carspec2PriorityKeys.contains k2)) := by
      unfold carspec2_fieldnames
      simp
    rw [hdq]
    exact chain_pySorted _

/-- Witness for claim C5: the amended column-order facts at the concrete
one-record set. -/
theorem claim_C5_witness :
    "Brand" ∈ autodata_fieldnames (unionKeys oneFooRecord) ∧
    "Foo" ∈ unionKeys oneFooRecord := by
  constructor
  · exact (claim_C5_column_order (unionKeys oneFooRecord) oneFooRecord
      "Brand").1 (by decide)
  · exact (claim_C5_column_order (unionKeys oneFooRecord) oneFooRecord
      "Foo").2.2.1 (by decide)

/-- Claim C6 counterexample: normalizing and writing mutates the records —
after the write_to_csv padding pass, the record that lacked Brand has
gained a binding of Brand to the empty string, so its field mapping is not
left unchanged (and the new binding is not a URL-derived backfill). -/
theorem claim_C6_counterexample :
    write_to_csv_records (autodata_fieldnames (unionKeys oneFooRecord))
        oneFooRecord ≠ oneFooRecord ∧
    dictGet?
      ((write_to_csv_records (autodata_fieldnames (unionKeys oneFooRecord))
        oneFooRecord).getD 0 []) "Brand" = some "" := by decide

/-- Claim C6 (amended): records are mutated after creation in exactly two
ways — the URL-based Brand/Model backfill, which changes no key other than
Brand and Model, and the normalizer padding, which never changes the value
of a present key and only adds empty-string bindings for missing field
names. -/
theorem claim_C6_mutation (fieldnames : List String) (car car' : PyDict)
    (k w : String) :
    (dictGet? car k = some w → dictGet? (padCar fieldnames car) k = some w) ∧
    (dictGet? car k = none →
      dictGet? (padCar fieldnames car) k =
        if fieldnames.contains k then some "" else none) ∧
    (backfillCar car = some car' → k ≠ "Brand" → k ≠ "Model" →
      dictGet? car' k = dictGet? car k) :=
  ⟨fun h => padCar_get_of_some fieldnames car k w h,
   fun h => padCar_get_of_none fieldnames car k h,
   fun h hb hm => backfillCar_preserves_other car car' k h hb hm⟩

/-- Record in need of a backfill, with a well-formed detail URL. -/
def backfillInput : PyDict :=
  [("URL", "https://www.thecarspec.net/cars/alfa-romeo/giulia/11/car-detail/2"),
   ("Foo", "7")]

/-- Witness for claim C6: padding preserves the present Foo binding and
adds an empty Brand; the backfill leaves the Foo binding untouched. -/
theorem claim_C6_witness :
    dictGet? (padCar ["Brand", "Foo"] [("Foo", "1")]) "Foo" = some "1" ∧
    dictGet? (padCar ["Brand", "Foo"] [("Foo", "1")]) "Brand" =
      (if (["Brand", "Foo"] : List String).contains "Brand"
        then some "" else none) ∧
    dictGet? ((backfillCar backfillInput).getD []) "Foo"
      = dictGet? backfillInput "Foo" := by
  refine ⟨?_, ?_, ?_⟩
  · exact (claim_C6_mutation ["Brand", "Foo"] [("Foo", "1")] [] "Foo" "1").1
      (by decide)
  · exact (claim_C6_mutation ["Brand", "Foo"] [("Foo", "1")] [] "Brand" "").2.1
      (by decide)
  · exact (claim_C6_mutation [] backfillInput
      ((backfillCar backfillInput).getD []) "Foo" "").2.2
      (by decide) (by decide) (by decide)

/-- Snapshot content of five records. -/
def fiveRecords : List PyDict := List.replicate 5 [("Brand", "X")]

/-- Claim C7 counterexample: autodata main performs no validation on a
loaded snapshot — a 5-record pickle is used as-is to write the CSV; it is
neither deleted nor does the pipeline re-run. -/
theorem claim_C7_counterexample :
    fiveRecords.length < 100 ∧
    autodata_checkpoint_main (.list fiveRecords)
      = ⟨false, false, true, false⟩ := by decide

/-- Claim C7 (amended): the theCarSpec scrapers validate the snapshot — a
pickle that fails to load, is not a list, or is below the minimum record
count (100, or 10000 in scraper2) is deleted and the full pipeline re-runs,
while a large enough list is used; the autodata and carsdirectory scrapers
instead load an existing snapshot unconditionally, with no validation and
no deletion path. -/
theorem claim_C7_checkpoint_validation (rs : List PyDict) :
    (rs.length < 100 →
      carspec_checkpoint_main (.list rs) = ⟨true, true, false⟩) ∧
    (100 ≤ rs.length →
      carspec_checkpoint_main (.list rs) = ⟨false, false, true⟩) ∧
    carspec_checkpoint_main .corrupt = ⟨true, true, false⟩ ∧
    carspec_checkpoint_main .nonList = ⟨true, true, false⟩ ∧
    (rs.length < 10000 →
      carspec2_checkpoint_main (.list rs) = ⟨true, true, false⟩) ∧
    autodata_checkpoint_main (.list rs) = ⟨false, false, true, false⟩ := by
  refine ⟨?_, ?_, rfl, rfl, ?_, rfl⟩
  · intro h
    simp [carspec_checkpoint_main, h]
  · intro h
    have h2 : ¬ rs.length < 100 := by omega
    simp [carspec_checkpoint_main, h2]
  · intro h
    simp [carspec2_checkpoint_main, h]

/-- Snapshot content of one hundred records. -/
def hundredRecords : List PyDict := List.replicate 100 [("Brand", "X")]

/-- Witness for claim C7: validation outcomes at concrete snapshots of 5
and 100 records. -/
theorem claim_C7_witness :
    carspec_checkpoint_main (.list fiveRecords) = ⟨true, true, false⟩ ∧
    carspec_checkpoint_main (.list hundredRecords) = ⟨false, false, true⟩ ∧
    carspec2_checkpoint_main (.list fiveRecords) = ⟨true, true, false⟩ := by
  refine ⟨?_, ?_, ?_⟩
  · exact (claim_C7_checkpoint_validation fiveRecords).1 (by decide)
  · exact (claim_C7_checkpoint_validation hundredRecords).2.1 (by decide)
  · exact (claim_C7_checkpoint_validation fiveRecords).2.2.2.2.1 (by decide)

/-- Claim C8 counterexample: a thecarSpec_scraper2 run whose model stage
produced an empty output — an Aborted(empty-stage) run by the spec's state
machine — still invokes the snapshot save. -/
theorem claim_C8_counterexample :
    scraper2_models site20 = [] ∧
    (scraper2_run site20).wrotePickle = true := by decide

/-- Claim C8 (amended): the autodata pipeline saves the snapshot only when
every stage output was non-empty, and a cached run never saves; in
thecarSpec_scraper2 the aborted (no brands) and crashed runs never save,
but a run with non-empty brands saves even when a later stage output is
empty. -/
theorem claim_C8_save_policy (pickleExists : Bool) (s : Site) (s2 : Site2) :
    ((autodata_main pickleExists s).wrotePickle = true →
      s.brands ≠ [] ∧ modelLinks s ≠ [] ∧ generationLinks s ≠ [] ∧
        variantLinks s ≠ [] ∧ carRecords s ≠ []) ∧
    (s2.brands = [] → (scraper2_run s2).wrotePickle = false) ∧
    ((scraper2_run s2).crashed = true →
      (scraper2_run s2).wrotePickle = false) := by
  refine ⟨?_, ?_, ?_⟩
  · intro h
    cases pickleExists with
    | true => simp [autodata_main] at h
    | false =>
      unfold autodata_main at h
      cases hp : parse_cars s with
      | none =>
        rw [hp] at h
        simp at h
      | some cs =>
        unfold parse_cars at hp
        split_ifs at hp with h1 h2 h3 h4 h5
        exact ⟨fun he => h1 (by simp [he]), fun he => h2 (by simp [he]),
          fun he => h3 (by simp [he]), fun he => h4 (by simp [he]),
          fun he => h5 (by simp [he])⟩
  · intro h
    simp [scraper2_run, h]
  · intro h
    unfold scraper2_run at h ⊢
    by_cases he : s2.brands.isEmpty
    · simp [he] at h
    · simp only [he, Bool.false_eq_true, if_false] at h ⊢
      cases hb : backfillAll (scraper2_cars s2) with
      | none => rfl
      | some l =>
        rw [hb] at h
        simp at h

/-- Autodata site producing one non-empty record at every stage. -/
def siteFull : Site :=
  ⟨["b"], fun _ => ["m"], fun _ => ["g"], fun _ => ["v"],
   fun _ => [("Brand", "X")]⟩

/-- Witness for claim C8: the save policy applied at a run that saved and
at the aborted and crashed thecarspec runs. -/
theorem claim_C8_witness :
    siteFull.brands ≠ [] ∧
    (scraper2_run site2Empty).wrotePickle = false := by
  constructor
  · exact ((claim_C8_save_policy false siteFull site2Empty).1 (by decide)).1
  · exact (claim_C8_save_policy false siteFull site2Empty).2.1 (by decide)

/-- Claim C9 (confirmed): the checkpoint round-trips — loading what save
wrote returns exactly the record set that was saved (stated, as the claim
does, for non-empty well-formed record sets; the proof does not need the
hypothesis). -/
theorem claim_C9_round_trip (rs : List PyDict) (_h : rs ≠ []) :
    read_pickle (write_pickle rs) = some rs := by
  unfold write_pickle read_pickle
  have hd := decodeRecords_encode rs []
  rw [List.append_nil] at hd
  simp [hd]

/-- Witness for claim C9: the round-trip at a one-record set. -/
theorem claim_C9_witness :
    read_pickle (write_pickle [[("Brand", "X")]]) = some [[("Brand", "X")]] :=
  claim_C9_round_trip [[("Brand", "X")]] (by decide)

theorem ownText_clean (x : Node) :
    ((ownText x).toList.all (fun c => c != '\n')) = true ∧
    pyStrip (ownText x) = ownText x := by
  constructor
  · rw [List.all_eq_true]
    intro c hc
    have h2 : c ∈ (pyStripL (String.join (directStrings x)).toList).filter
        (fun c => c != '\n') := hc
    exact (List.mem_filter.mp h2).2
  · unfold ownText removeNl pyStrip
    exact congrArg String.mk (pyStripL_filter_pyStripL _)

/-- Claim C10 (confirmed): direct_text always returns a string — totality
holds by construction in the embedding, mirroring that every Python branch
returns — and that string contains no newline character and carries no
leading or trailing whitespace (stripping it again changes nothing). -/
theorem claim_C10_direct_text_clean (t : Node) :
    ((direct_text t).toList.all (fun c => c != '\n')) = true ∧
    pyStrip (direct_text t) = direct_text t := by
  unfold direct_text
  by_cases h : ownText t ≠ ""
  · simpa [h] using ownText_clean t
  · simp only [h, if_false]
    cases hc : firstElemChild (Node.children t) with
    | some c => exact ownText_clean c
    | none => exact ⟨rfl, rfl⟩
